import Mathlib

/-!
Verification development for the `solar_system` repository.

The repository's `src/lib.rs` contains the presentation layer and the
`Simulation` boundary wrapper; the celestial-mechanics engine itself
(modules `simulation`, `kepler_orbit` and `uom_wrapper`) is declared and
called there but its source files are not part of the staged sources, so
the engine is modelled here from the specification's words.  Definitions
taken directly from `src/lib.rs` say so in their doc comments; engine
definitions carry a `Modelled from the spec:` note.

Conventions of the embedding:
  * engine scalars are real numbers (`ℝ`); the engine's internal units are
    meters, seconds and radians, matching the spec's §6;
  * the simulation clock is an absolute time in seconds;
  * colors and display names (pure data from `src/lib.rs`) use rational
    channel values so that facts about them are decidable.
-/

namespace SolSys

/-- Modelled from the spec: `Body` is a closed enumeration of exactly ten
values — one star, eight planets, one moon (`simulation` module is absent
from the staged sources; the constructor set is fixed by the spec and by
the ten `visuals.insert` calls in `Simulation::init` of `src/lib.rs`). -/
inductive Body where
  | Sun : Body
  | Mercury : Body
  | Venus : Body
  | Earth : Body
  | Moon : Body
  | Mars : Body
  | Jupiter : Body
  | Saturn : Body
  | Uranus : Body
  | Neptune : Body
deriving DecidableEq, BEq, Fintype, Repr

/-- An RGB color with rational channels; embeds bevy's `Color` as used in
`src/lib.rs` (only construction and equality are needed there). -/
structure Color where
  red : ℚ
  green : ℚ
  blue : ℚ
deriving DecidableEq, Repr

/-- bevy's `Color::WHITE`, the fallback value in `Simulation::color_of`. -/
def Color.WHITE : Color := ⟨1, 1, 1⟩

/-- bevy's `Color::srgb_u8`: byte channels scaled into `[0, 1]`. -/
def Color.srgb_u8 (r g b : ℕ) : Color := ⟨(r : ℚ) / 255, (g : ℚ) / 255, (b : ℚ) / 255⟩

/-- The Sun's color from `src/lib.rs`: `10. * Srgba::rgb(0.9922, 0.9843, 0.8275)`,
scaled by 10 for HDR and bloom. -/
def sunColor : Color := ⟨10 * (0.9922 : ℚ), 10 * (0.9843 : ℚ), 10 * (0.8275 : ℚ)⟩

/-- Display properties of a body, from `struct BodyVisual` in `src/lib.rs`. -/
structure BodyVisual where
  name : String
  color : Color
deriving DecidableEq, Repr

/-- `BodyVisual::new` from `src/lib.rs`. -/
def BodyVisual.new (name : String) (color : Color) : BodyVisual := ⟨name, color⟩

/-- The association list built by the ten `visuals.insert` calls in
`Simulation::init` (`src/lib.rs`); keys are distinct so insertion order is
immaterial. -/
def bodyVisuals : List (Body × BodyVisual) :=
  [ (Body.Sun, BodyVisual.new "Sun" sunColor),
    (Body.Mercury, BodyVisual.new "Mercury" (Color.srgb_u8 0x1a 0x1a 0x1a)),
    (Body.Venus, BodyVisual.new "Venus" (Color.srgb_u8 0xe6 0xe6 0xe6)),
    (Body.Earth, BodyVisual.new "Earth" (Color.srgb_u8 0x2f 0x6a 0x69)),
    (Body.Moon, BodyVisual.new "Moon" (Color.srgb_u8 96 86 74)),
    (Body.Mars, BodyVisual.new "Mars" (Color.srgb_u8 0x99 0x3d 0x00)),
    (Body.Jupiter, BodyVisual.new "Jupiter" (Color.srgb_u8 0xb0 0x7f 0x35)),
    (Body.Saturn, BodyVisual.new "Saturn" (Color.srgb_u8 0xb0 0x8f 0x36)),
    (Body.Uranus, BodyVisual.new "Uranus" (Color.srgb_u8 0x55 0x80 0xaa)),
    (Body.Neptune, BodyVisual.new "Neptune" (Color.srgb_u8 0x36 0x68 0x96)) ]

/-- A three-component real vector (positions in meters, velocities in
meters per second inside the engine). -/
structure Vec3 where
  x : ℝ
  y : ℝ
  z : ℝ

/-- The zero vector. -/
def Vec3.zero : Vec3 := ⟨0, 0, 0⟩

/-- Componentwise vector addition. -/
noncomputable def Vec3.add (v w : Vec3) : Vec3 := ⟨v.x + w.x, v.y + w.y, v.z + w.z⟩

noncomputable instance : Add Vec3 := ⟨Vec3.add⟩

/-- Scaling of a vector by a real number. -/
noncomputable def Vec3.smul (c : ℝ) (v : Vec3) : Vec3 := ⟨c * v.x, c * v.y, c * v.z⟩

/-- The Euclidean magnitude of a vector. -/
noncomputable def Vec3.norm (v : Vec3) : ℝ :=
  Real.sqrt (v.x ^ 2 + v.y ^ 2 + v.z ^ 2)

/-- Modelled from the spec: the Kepler-equation residual
`E − e·sin E − M` (the quantity the solver drives below its tolerance;
`kepler_orbit` module is absent from the staged sources). -/
noncomputable def keplerResidual (e M E : ℝ) : ℝ := E - e * Real.sin E - M

/-- Modelled from the spec: one Newton–Raphson step
`E ← E − (E − e·sin E − M)/(1 − e·cos E)` of the Kepler solver. -/
noncomputable def newtonStep (e M E : ℝ) : ℝ :=
  E - (E - e * Real.sin E - M) / (1 - e * Real.cos E)

/-- Modelled from the spec: the solver's absolute tolerance, 1e-8 radians. -/
noncomputable def KEPLER_TOL : ℝ := 0.00000001

/-- Modelled from the spec: the solver's iteration bound. -/
def KEPLER_MAX_ITER : ℕ := 100

/-- Modelled from the spec: the bounded Newton iteration, seeded with
`E₀ = M`; an iterate already within tolerance is kept unchanged (the loop
exits early), otherwise a Newton step is taken. -/
noncomputable def keplerIter (e M : ℝ) : ℕ → ℝ
  | 0 => M
  | k + 1 =>
      let E := keplerIter e M k
      if |keplerResidual e M E| < KEPLER_TOL then E else newtonStep e M E

/-- Modelled from the spec: the Kepler solver — the iterate after the
iteration bound.  (The spec's `NumericalDivergence` condition is a fatal
signal carrying no state; the value model returns the last iterate.) -/
noncomputable def solveKepler (e M : ℝ) : ℝ := keplerIter e M KEPLER_MAX_ITER

/-- Modelled from the spec: `atan2 y x`, the angle of the point `(x, y)`,
realised as the complex argument of `x + y·i`. -/
noncomputable def atan2 (y x : ℝ) : ℝ := Complex.arg ⟨x, y⟩

/-- Modelled from the spec: a body's fixed orbital elements — semi-major
axis `a` (m), eccentricity `e`, inclination `incl`, longitude of ascending
node `Ω`, argument of periapsis `ω` (rad), mean anomaly at epoch `M0`
(rad), mean motion `n` (rad/s), and the reference focus (the Sun, or
another body for the one two-level case). -/
structure OrbitalElements where
  a : ℝ
  e : ℝ
  incl : ℝ
  Ω : ℝ
  ω : ℝ
  M0 : ℝ
  n : ℝ
  focus : Body

/-- Rotation of a vector about the z-axis by angle `θ`. -/
noncomputable def rotZ (θ : ℝ) (v : Vec3) : Vec3 :=
  ⟨v.x * Real.cos θ - v.y * Real.sin θ, v.x * Real.sin θ + v.y * Real.cos θ, v.z⟩

/-- Rotation of a vector about the x-axis by angle `θ`. -/
noncomputable def rotX (θ : ℝ) (v : Vec3) : Vec3 :=
  ⟨v.x, v.y * Real.cos θ - v.z * Real.sin θ, v.y * Real.sin θ + v.z * Real.cos θ⟩

/-- Modelled from the spec: the 3-1-3 Euler rotation taking perifocal
coordinates into the focus frame — argument of periapsis, then
inclination, then longitude of ascending node. -/
noncomputable def perifocalToFocus (el : OrbitalElements) (v : Vec3) : Vec3 :=
  rotZ el.Ω (rotX el.incl (rotZ el.ω v))

/-- Modelled from the spec: `M(t) = M0 + n·t`, reduced to one turn
(`Int.fract` is the fractional part, so the result lies in `[0, 2π)`). -/
noncomputable def meanAnomaly (el : OrbitalElements) (t : ℝ) : ℝ :=
  2 * Real.pi * Int.fract ((el.M0 + el.n * t) / (2 * Real.pi))

/-- Modelled from the spec: the eccentric anomaly at elapsed time `t`,
`E = KeplerSolver(M(t), e)`. -/
noncomputable def eccentricAnomaly (el : OrbitalElements) (t : ℝ) : ℝ :=
  solveKepler el.e (meanAnomaly el t)

/-- Modelled from the spec: the true anomaly
`ν = 2·atan2(√(1+e)·sin(E/2), √(1−e)·cos(E/2))`. -/
noncomputable def trueAnomaly (el : OrbitalElements) (t : ℝ) : ℝ :=
  let E := eccentricAnomaly el t
  2 * atan2 (Real.sqrt (1 + el.e) * Real.sin (E / 2))
      (Real.sqrt (1 - el.e) * Real.cos (E / 2))

/-- Modelled from the spec: the orbital radius `r = a·(1 − e·cos E)`. -/
noncomputable def orbitalRadius (el : OrbitalElements) (t : ℝ) : ℝ :=
  el.a * (1 - el.e * Real.cos (eccentricAnomaly el t))

/-- Modelled from the spec: the perifocal-plane position
`(r·cos ν, r·sin ν, 0)`. -/
noncomputable def perifocalPosition (el : OrbitalElements) (t : ℝ) : Vec3 :=
  ⟨orbitalRadius el t * Real.cos (trueAnomaly el t),
   orbitalRadius el t * Real.sin (trueAnomaly el t), 0⟩

/-- Modelled from the spec: the perifocal-plane velocity from the standard
time-derivative relations, `(−sin E, √(1−e²)·cos E, 0)` scaled by
`a·n/(1 − e·cos E)`. -/
noncomputable def perifocalVelocity (el : OrbitalElements) (t : ℝ) : Vec3 :=
  let E := eccentricAnomaly el t
  let s := el.a * el.n / (1 - el.e * Real.cos E)
  ⟨-(s * Real.sin E), s * Real.sqrt (1 - el.e ^ 2) * Real.cos E, 0⟩

/-- Modelled from the spec: the propagated position in the focus's local
Cartesian axes (OrbitPropagator output). -/
noncomputable def localPosition (el : OrbitalElements) (t : ℝ) : Vec3 :=
  perifocalToFocus el (perifocalPosition el t)

/-- Modelled from the spec: the propagated velocity in the focus's local
Cartesian axes (OrbitPropagator output). -/
noncomputable def localVelocity (el : OrbitalElements) (t : ℝ) : Vec3 :=
  perifocalToFocus el (perifocalVelocity el t)

/-- Modelled from the spec: Mercury's orbital elements (catalog constants
in meters, radians and radians per second; the `simulation` module holding
the literal catalog is absent from the staged sources, so standard values
fill the record; all proofs depend only on `0 ≤ a`, `0 ≤ e < 1` and on the
focus). -/
noncomputable def mercuryElements : OrbitalElements :=
  ⟨5.7909e10, 0.2056, 0.12226, 0.84354, 0.50831, 3.05077, 0.00000082668, Body.Sun⟩

/-- Modelled from the spec: Venus's orbital elements. -/
noncomputable def venusElements : OrbitalElements :=
  ⟨1.0821e11, 0.0068, 0.05924, 1.33832, 0.95736, 0.87467, 0.00000032363, Body.Sun⟩

/-- Modelled from the spec: Earth's orbital elements. -/
noncomputable def earthElements : OrbitalElements :=
  ⟨1.495979e11, 0.0167, 0.0000087, 3.0523, 1.9933, 6.23906, 0.000000199099, Body.Sun⟩

/-- Modelled from the spec: the Moon's orbital elements — the one record
whose reference focus is another body (the Earth). -/
noncomputable def moonElements : OrbitalElements :=
  ⟨3.844e8, 0.0549, 0.0898, 2.18244, 5.55277, 2.36091, 0.0000026617, Body.Earth⟩

/-- Modelled from the spec: Mars's orbital elements. -/
noncomputable def marsElements : OrbitalElements :=
  ⟨2.2794e11, 0.0934, 0.03229, 0.86531, 5.0004, 0.33881, 0.000000105857, Body.Sun⟩

/-- Modelled from the spec: Jupiter's orbital elements. -/
noncomputable def jupiterElements : OrbitalElements :=
  ⟨7.7857e11, 0.0489, 0.02278, 1.75344, 4.78007, 0.34941, 0.0000000167849, Body.Sun⟩

/-- Modelled from the spec: Saturn's orbital elements. -/
noncomputable def saturnElements : OrbitalElements :=
  ⟨1.43353e12, 0.0565, 0.04339, 1.98383, 5.92354, 5.53304, 0.00000000675897, Body.Sun⟩

/-- Modelled from the spec: Uranus's orbital elements. -/
noncomputable def uranusElements : OrbitalElements :=
  ⟨2.87246e12, 0.0457, 0.01349, 1.29164, 1.69167, 2.48253, 0.00000000236985, Body.Sun⟩

/-- Modelled from the spec: Neptune's orbital elements. -/
noncomputable def neptuneElements : OrbitalElements :=
  ⟨4.49506e12, 0.0113, 0.03089, 2.30001, 4.82297, 4.47202, 0.00000000120824, Body.Sun⟩

/-- Modelled from the spec: the fixed element catalog — one record per
non-stellar body, none for the star; built once, never mutated. -/
noncomputable def elementsOf : Body → Option OrbitalElements
  | Body.Sun => none
  | Body.Mercury => some mercuryElements
  | Body.Venus => some venusElements
  | Body.Earth => some earthElements
  | Body.Moon => some moonElements
  | Body.Mars => some marsElements
  | Body.Jupiter => some jupiterElements
  | Body.Saturn => some saturnElements
  | Body.Uranus => some uranusElements
  | Body.Neptune => some neptuneElements

/-- Modelled from the spec: the catalog radius of each body, in meters. -/
noncomputable def bodyRadius : Body → ℝ
  | Body.Sun => 6.957e8
  | Body.Mercury => 2.4397e6
  | Body.Venus => 6.0518e6
  | Body.Earth => 6.371e6
  | Body.Moon => 1.7374e6
  | Body.Mars => 3.3895e6
  | Body.Jupiter => 6.9911e7
  | Body.Saturn => 5.8232e7
  | Body.Uranus => 2.5362e7
  | Body.Neptune => 2.4622e7

/-- Modelled from the spec: the derived apsis `a·(1+e)`, the maximum
distance from the body's own focus. -/
noncomputable def OrbitalElements.apsis (el : OrbitalElements) : ℝ := el.a * (1 + el.e)

/-- Modelled from the spec: the static physical properties of a body —
radius (m), luminosity (W, nonzero only for the star) and apsis (m). -/
structure PhysicalProperties where
  radius : ℝ
  luminosity : ℝ
  apsis : ℝ

/-- Modelled from the spec: the static property table, derived once from
the catalog (the star has zero apsis, every other body zero luminosity
and an apsis derived from its elements). -/
noncomputable def propertiesOf (b : Body) : PhysicalProperties :=
  match elementsOf b with
  | none => ⟨bodyRadius b, 3.828e26, 0⟩
  | some el => ⟨bodyRadius b, 0, el.apsis⟩

/-- Modelled from the spec: a body's focus-local propagated position at
elapsed time `t` — zero for the star, which is not propagated. -/
noncomputable def focusLocalPositionAt (b : Body) (t : ℝ) : Vec3 :=
  match elementsOf b with
  | none => Vec3.zero
  | some el => localPosition el t

/-- Modelled from the spec: a body's focus-local propagated velocity at
elapsed time `t` — zero for the star. -/
noncomputable def focusLocalVelocityAt (b : Body) (t : ℝ) : Vec3 :=
  match elementsOf b with
  | none => Vec3.zero
  | some el => localVelocity el t

/-- Modelled from the spec (FrameComposer): the global Sun-centered
position of a body at elapsed time `t`.  The star is fixed at the origin;
a heliocentric body's local state already is global; for a focus that is
itself an orbiting body the composition takes exactly one recursive step
(the focus graph is at most two levels deep, so the focus's own global
position is its local position). -/
noncomputable def globalPositionAt (b : Body) (t : ℝ) : Vec3 :=
  match elementsOf b with
  | none => Vec3.zero
  | some el =>
    match elementsOf el.focus with
    | none => localPosition el t
    | some fel => localPosition fel t + localPosition el t

/-- Modelled from the spec (FrameComposer): the global Sun-centered
velocity of a body at elapsed time `t`, composed like the position. -/
noncomputable def globalVelocityAt (b : Body) (t : ℝ) : Vec3 :=
  match elementsOf b with
  | none => Vec3.zero
  | some el =>
    match elementsOf el.focus with
    | none => localVelocity el t
    | some fel => localVelocity fel t + localVelocity el t

/-- Modelled from the spec: the engine's error kind for a rejected
timestep. -/
inductive SimError where
  | invalidTimestep : SimError
deriving DecidableEq, Repr

/-- Modelled from the spec: the SolarSystem facade's state — the
construction epoch and the absolute simulation clock `T`, both in
seconds.  `T` is the only mutable state in the engine. -/
structure SolarSystem where
  epoch : ℝ
  T : ℝ

/-- Modelled from the spec: `init(epoch)` sets `T = epoch` (the fixed
catalogs are global constants in this embedding). -/
noncomputable def SolarSystem.init (epoch : ℝ) : SolarSystem := ⟨epoch, epoch⟩

/-- Modelled from the spec: `advance_time(Δt)` requires `Δt ≥ 0` and sets
`T ← T + Δt`; a negative `Δt` is rejected with `InvalidTimestep` and
leaves the state unchanged.  The pair returns the next state and the
reported error, if any. -/
noncomputable def SolarSystem.advance_time (s : SolarSystem) (dt : ℝ) :
    SolarSystem × Option SimError :=
  if dt < 0 then (s, some SimError.invalidTimestep)
  else (⟨s.epoch, s.T + dt⟩, none)

/-- Modelled from the spec: `position_of` recomputes the global position
from the catalogs and the elapsed time `T − epoch` (meters). -/
noncomputable def SolarSystem.position_of (s : SolarSystem) (b : Body) : Vec3 :=
  globalPositionAt b (s.T - s.epoch)

/-- Modelled from the spec: `velocity_of` recomputes the global velocity
from the catalogs and the elapsed time `T − epoch` (meters per second). -/
noncomputable def SolarSystem.velocity_of (s : SolarSystem) (b : Body) : Vec3 :=
  globalVelocityAt b (s.T - s.epoch)

/-- Modelled from the spec: `properties_of`, an O(1) lookup into the
static table. -/
noncomputable def SolarSystem.properties_of (_ : SolarSystem) (b : Body) :
    PhysicalProperties :=
  propertiesOf b

/-- Modelled from the spec: `bodies()` returns the fixed set of all ten
modeled bodies. -/
def SolarSystem.bodies (_ : SolarSystem) : Finset Body := Finset.univ

/-- The number of meters in one astronomical unit, the conversion factor
behind `get::<astronomical_unit>` (uom's standard value; the
`uom_wrapper` module is absent from the staged sources). -/
noncomputable def METERS_PER_AU : ℝ := 1.495978707e11

/-- Conversion of a length from meters to astronomical units, as done
componentwise in `Simulation::position_of` (`src/lib.rs`). -/
noncomputable def meterToAu (len : ℝ) : ℝ := len / METERS_PER_AU

/-- The `MPS_TO_AUPD` factor imported from `uom_wrapper` in `src/lib.rs`:
meters per second to astronomical units per day (seconds per day over
meters per astronomical unit). -/
noncomputable def MPS_TO_AUPD : ℝ := 86400 / METERS_PER_AU

/-- The `Simulation` resource of `src/lib.rs`: the solar-system model and
the per-body display properties. -/
structure Simulation where
  solar_system : SolarSystem
  body_visuals : List (Body × BodyVisual)

/-- `Simulation::DT` from `src/lib.rs`: the time step passed to
`Time::new::<minute>` on every advance. -/
def Simulation.DT : ℝ := 30

/-- `Simulation::EPOCH_JD` from `src/lib.rs`: the Julian Date when the
simulation begins (2023-01-01T00:00:00 UTC). -/
noncomputable def Simulation.EPOCH_JD : ℝ := 2459945.5

/-- `Simulation::init` from `src/lib.rs`: builds the ten body visuals and
constructs the solar system at `Time::new::<day>(EPOCH_JD)` (days become
seconds in the engine's internal units). -/
noncomputable def Simulation.init : Simulation :=
  ⟨SolarSystem.init (Simulation.EPOCH_JD * 86400), bodyVisuals⟩

/-- `Simulation::advance` from `src/lib.rs`: advances the solar system by
`Time::new::<minute>(DT)`, i.e. `DT` minutes expressed in seconds. -/
noncomputable def Simulation.advance (s : Simulation) : Simulation :=
  ⟨(s.solar_system.advance_time (Simulation.DT * 60)).1, s.body_visuals⟩

/-- `Simulation::apsis_of` from `src/lib.rs`: the body's apsis converted
to astronomical units (the `f32` narrowing of the Rust code is elided). -/
noncomputable def Simulation.apsis_of (s : Simulation) (b : Body) : ℝ :=
  meterToAu (s.solar_system.properties_of b).apsis

/-- `Simulation::bodies` from `src/lib.rs`: forwards to the model. -/
def Simulation.bodies (s : Simulation) : Finset Body := s.solar_system.bodies

/-- `Simulation::color_of` from `src/lib.rs`: the stored visual's color,
or `Color::WHITE` when the lookup misses. -/
def Simulation.color_of (s : Simulation) (b : Body) : Color :=
  match s.body_visuals.lookup b with
  | some vis => vis.color
  | none => Color.WHITE

/-- `Simulation::luminosity_of` from `src/lib.rs`. -/
noncomputable def Simulation.luminosity_of (s : Simulation) (b : Body) : ℝ :=
  (s.solar_system.properties_of b).luminosity

/-- `Simulation::name_of` from `src/lib.rs`: the stored visual's name, or
`"unknown"` when the lookup misses. -/
def Simulation.name_of (s : Simulation) (b : Body) : String :=
  match s.body_visuals.lookup b with
  | some vis => vis.name
  | none => "unknown"

/-- `Simulation::position_of` from `src/lib.rs`: each component of the
model's position converted from meters to astronomical units. -/
noncomputable def Simulation.position_of (s : Simulation) (b : Body) : Vec3 :=
  let pos := s.solar_system.position_of b
  ⟨meterToAu pos.x, meterToAu pos.y, meterToAu pos.z⟩

/-- `Simulation::radius_of` from `src/lib.rs`. -/
noncomputable def Simulation.radius_of (s : Simulation) (b : Body) : ℝ :=
  meterToAu (s.solar_system.properties_of b).radius

/-- `Simulation::velocity_of` from `src/lib.rs`: the model's velocity
scaled by `MPS_TO_AUPD` (meters per second to astronomical units per
day). -/
noncomputable def Simulation.velocity_of (s : Simulation) (b : Body) : Vec3 :=
  Vec3.smul MPS_TO_AUPD (s.solar_system.velocity_of b)

/-- At eccentricity zero the Kepler residual vanishes at the seed. -/
lemma keplerResidual_zero_ecc (M : ℝ) : keplerResidual 0 M M = 0 := by
  simp [keplerResidual]

/-- At eccentricity zero every iterate of the solver stays at the seed
`M` (the tolerance test succeeds immediately at every step). -/
lemma keplerIter_zero_ecc (M : ℝ) (k : ℕ) : keplerIter 0 M k = M := by
  induction k with
  | zero => rfl
  | succ k ih =>
      have h : |keplerResidual 0 M M| < KEPLER_TOL := by
        rw [keplerResidual_zero_ecc, abs_zero]
        unfold KEPLER_TOL
        norm_num
      simp only [keplerIter]
      rw [ih, if_pos h]

/-- Rotation about the z-axis preserves the squared magnitude. -/
lemma rotZ_normSq (θ : ℝ) (v : Vec3) :
    (rotZ θ v).x ^ 2 + (rotZ θ v).y ^ 2 + (rotZ θ v).z ^ 2
      = v.x ^ 2 + v.y ^ 2 + v.z ^ 2 := by
  simp only [rotZ]
  linear_combination (v.x ^ 2 + v.y ^ 2) * Real.sin_sq_add_cos_sq θ

/-- Rotation about the x-axis preserves the squared magnitude. -/
lemma rotX_normSq (θ : ℝ) (v : Vec3) :
    (rotX θ v).x ^ 2 + (rotX θ v).y ^ 2 + (rotX θ v).z ^ 2
      = v.x ^ 2 + v.y ^ 2 + v.z ^ 2 := by
  simp only [rotX]
  linear_combination (v.y ^ 2 + v.z ^ 2) * Real.sin_sq_add_cos_sq θ

/-- Rotation about the z-axis preserves the magnitude. -/
lemma rotZ_norm (θ : ℝ) (v : Vec3) : (rotZ θ v).norm = v.norm := by
  unfold Vec3.norm
  rw [rotZ_normSq]

/-- Rotation about the x-axis preserves the magnitude. -/
lemma rotX_norm (θ : ℝ) (v : Vec3) : (rotX θ v).norm = v.norm := by
  unfold Vec3.norm
  rw [rotX_normSq]

/-- The 3-1-3 Euler rotation into the focus frame preserves the
magnitude. -/
lemma perifocalToFocus_norm (el : OrbitalElements) (v : Vec3) :
    (perifocalToFocus el v).norm = v.norm := by
  unfold perifocalToFocus
  rw [rotZ_norm, rotX_norm, rotZ_norm]

/-- The magnitude of the perifocal position is the absolute orbital
radius. -/
lemma perifocalPosition_norm (el : OrbitalElements) (t : ℝ) :
    (perifocalPosition el t).norm = |orbitalRadius el t| := by
  unfold Vec3.norm perifocalPosition
  have h : (orbitalRadius el t * Real.cos (trueAnomaly el t)) ^ 2 +
      (orbitalRadius el t * Real.sin (trueAnomaly el t)) ^ 2 + (0 : ℝ) ^ 2
      = orbitalRadius el t ^ 2 := by
    linear_combination orbitalRadius el t ^ 2 * Real.sin_sq_add_cos_sq (trueAnomaly el t)
  rw [h]
  exact Real.sqrt_sq_eq_abs _

/-- For catalog-shaped elements (`0 ≤ a`, `0 ≤ e ≤ 1`) the propagated
focus-local position never exceeds the apsis `a·(1+e)`. -/
lemma localPosition_norm_le (el : OrbitalElements) (t : ℝ)
    (ha : 0 ≤ el.a) (he0 : 0 ≤ el.e) (he1 : el.e ≤ 1) :
    (localPosition el t).norm ≤ el.apsis := by
  unfold localPosition
  rw [perifocalToFocus_norm, perifocalPosition_norm]
  have hclow := Real.neg_one_le_cos (eccentricAnomaly el t)
  have hchigh := Real.cos_le_one (eccentricAnomaly el t)
  have h1 : el.e * Real.cos (eccentricAnomaly el t) ≤ el.e * 1 :=
    mul_le_mul_of_nonneg_left hchigh he0
  have h2 : el.e * (-1) ≤ el.e * Real.cos (eccentricAnomaly el t) :=
    mul_le_mul_of_nonneg_left hclow he0
  have hr0 : 0 ≤ orbitalRadius el t := by
    unfold orbitalRadius
    have : 0 ≤ 1 - el.e * Real.cos (eccentricAnomaly el t) := by linarith
    exact mul_nonneg ha this
  rw [abs_of_nonneg hr0]
  unfold orbitalRadius OrbitalElements.apsis
  have h3 : 1 - el.e * Real.cos (eccentricAnomaly el t) ≤ 1 + el.e := by linarith
  exact mul_le_mul_of_nonneg_left h3 ha

/-- C2: for all non-negative durations `x` and `y`, advancing by `x` then
by `y` from a fresh instance and then querying any body's position and
velocity yields the same values as a fresh instance with the same epoch
advanced once by `x + y` — the clock is recomputed from absolute elapsed
time, so there is no path-dependent drift (exact equality in the real
model). -/
theorem advance_time_path_independent (epoch x y : ℝ) (hx : 0 ≤ x) (hy : 0 ≤ y)
    (b : Body) :
    ((((SolarSystem.init epoch).advance_time x).1.advance_time y).1.position_of b
      = ((SolarSystem.init epoch).advance_time (x + y)).1.position_of b) ∧
    ((((SolarSystem.init epoch).advance_time x).1.advance_time y).1.velocity_of b
      = ((SolarSystem.init epoch).advance_time (x + y)).1.velocity_of b) := by
  have hxy : 0 ≤ x + y := add_nonneg hx hy
  have h1 : ((SolarSystem.init epoch).advance_time x).1 = ⟨epoch, epoch + x⟩ := by
    unfold SolarSystem.init SolarSystem.advance_time
    rw [if_neg (not_lt.mpr hx)]
  have h2 : (((SolarSystem.init epoch).advance_time x).1.advance_time y).1
      = ⟨epoch, epoch + x + y⟩ := by
    rw [h1]
    unfold SolarSystem.advance_time
    rw [if_neg (not_lt.mpr hy)]
  have h3 : ((SolarSystem.init epoch).advance_time (x + y)).1
      = ⟨epoch, epoch + (x + y)⟩ := by
    unfold SolarSystem.init SolarSystem.advance_time
    rw [if_neg (not_lt.mpr hxy)]
  have hstate : (((SolarSystem.init epoch).advance_time x).1.advance_time y).1
      = ((SolarSystem.init epoch).advance_time (x + y)).1 := by
    rw [h2, h3, add_assoc]
  exact ⟨congrArg (fun s => s.position_of b) hstate,
    congrArg (fun s => s.velocity_of b) hstate⟩

/-- Witness for C2 at `epoch = 0`, `x = 1`, `y = 2`, body Earth. -/
theorem advance_time_path_independent_witness :
    ((((SolarSystem.init 0).advance_time 1).1.advance_time 2).1.position_of Body.Earth
      = ((SolarSystem.init 0).advance_time (1 + 2)).1.position_of Body.Earth) ∧
    ((((SolarSystem.init 0).advance_time 1).1.advance_time 2).1.velocity_of Body.Earth
      = ((SolarSystem.init 0).advance_time (1 + 2)).1.velocity_of Body.Earth) :=
  advance_time_path_independent 0 1 2 zero_le_one zero_le_two Body.Earth

/-- C3: a negative duration is rejected — `advance_time` returns the state
unchanged together with `InvalidTimestep`, so every derived query
(`position_of`, `velocity_of`, `properties_of`) is unchanged; a
non-negative duration sets the clock to `T + Δt`. -/
theorem advance_time_rejects_negative (s : SolarSystem) (dt : ℝ) :
    (dt < 0 →
      (s.advance_time dt).1 = s ∧
      (s.advance_time dt).2 = some SimError.invalidTimestep ∧
      (∀ b : Body,
        (s.advance_time dt).1.position_of b = s.position_of b ∧
        (s.advance_time dt).1.velocity_of b = s.velocity_of b ∧
        (s.advance_time dt).1.properties_of b = s.properties_of b)) ∧
    (0 ≤ dt → (s.advance_time dt).1.T = s.T + dt) := by
  constructor
  · intro h
    have hs : s.advance_time dt = (s, some SimError.invalidTimestep) := by
      unfold SolarSystem.advance_time
      rw [if_pos h]
    rw [hs]
    exact ⟨rfl, rfl, fun b => ⟨rfl, rfl, rfl⟩⟩
  · intro h
    have hs : s.advance_time dt = (⟨s.epoch, s.T + dt⟩, none) := by
      unfold SolarSystem.advance_time
      rw [if_neg (not_lt.mpr h)]
    rw [hs]

/-- Witness for C3 at the fresh instance with epoch 0, durations −1 and 1. -/
theorem advance_time_rejects_negative_witness :
    ((SolarSystem.init 0).advance_time (-1)).1 = SolarSystem.init 0 ∧
    ((SolarSystem.init 0).advance_time 1).1.T = (SolarSystem.init 0).T + 1 :=
  ⟨((advance_time_rejects_negative (SolarSystem.init 0) (-1)).1
      (neg_lt_zero.mpr zero_lt_one)).1,
    (advance_time_rejects_negative (SolarSystem.init 0) 1).2 zero_le_one⟩

/-- C4: the Moon — the one body whose reference focus is another body —
has global position equal to its focus's (Earth's) own global position
plus the Moon's focus-local position, and likewise for velocity; the star
itself sits at the global origin with zero velocity at every time. -/
theorem moon_frame_composition (t : ℝ) :
    globalPositionAt Body.Moon t
      = globalPositionAt Body.Earth t + focusLocalPositionAt Body.Moon t ∧
    globalVelocityAt Body.Moon t
      = globalVelocityAt Body.Earth t + focusLocalVelocityAt Body.Moon t ∧
    globalPositionAt Body.Sun t = Vec3.zero ∧
    globalVelocityAt Body.Sun t = Vec3.zero :=
  ⟨rfl, rfl, rfl, rfl⟩

/-- C6: every heliocentric body (reference focus = Sun) keeps the
magnitude of its global position within the body's apsis `a·(1+e)` at
every clock value (proved with no tolerance at all: the bound is exact in
the real model). -/
theorem heliocentric_distance_bound (s : SolarSystem) (b : Body)
    (el : OrbitalElements) (hel : elementsOf b = some el)
    (hf : el.focus = Body.Sun) :
    (s.position_of b).norm ≤ (s.properties_of b).apsis := by
  cases b
  case Sun => exact absurd hel (by simp [elementsOf])
  case Moon =>
    have h : moonElements = el := by
      have := hel
      simp only [elementsOf, Option.some.injEq] at this
      exact this
    rw [← h] at hf
    exact absurd hf (by decide)
  case Mercury =>
    exact localPosition_norm_le mercuryElements (s.T - s.epoch)
      (by norm_num [mercuryElements]) (by norm_num [mercuryElements])
      (by norm_num [mercuryElements])
  case Venus =>
    exact localPosition_norm_le venusElements (s.T - s.epoch)
      (by norm_num [venusElements]) (by norm_num [venusElements])
      (by norm_num [venusElements])
  case Earth =>
    exact localPosition_norm_le earthElements (s.T - s.epoch)
      (by norm_num [earthElements]) (by norm_num [earthElements])
      (by norm_num [earthElements])
  case Mars =>
    exact localPosition_norm_le marsElements (s.T - s.epoch)
      (by norm_num [marsElements]) (by norm_num [marsElements])
      (by norm_num [marsElements])
  case Jupiter =>
    exact localPosition_norm_le jupiterElements (s.T - s.epoch)
      (by norm_num [jupiterElements]) (by norm_num [jupiterElements])
      (by norm_num [jupiterElements])
  case Saturn =>
    exact localPosition_norm_le saturnElements (s.T - s.epoch)
      (by norm_num [saturnElements]) (by norm_num [saturnElements])
      (by norm_num [saturnElements])
  case Uranus =>
    exact localPosition_norm_le uranusElements (s.T - s.epoch)
      (by norm_num [uranusElements]) (by norm_num [uranusElements])
      (by norm_num [uranusElements])
  case Neptune =>
    exact localPosition_norm_le neptuneElements (s.T - s.epoch)
      (by norm_num [neptuneElements]) (by norm_num [neptuneElements])
      (by norm_num [neptuneElements])

/-- Witness for C6 at the fresh instance with epoch 0 and body Earth. -/
theorem heliocentric_distance_bound_witness :
    ((SolarSystem.init 0).position_of Body.Earth).norm
      ≤ ((SolarSystem.init 0).properties_of Body.Earth).apsis :=
  heliocentric_distance_bound (SolarSystem.init 0) Body.Earth earthElements rfl rfl

/-- C5: at eccentricity zero the solver yields `E = M` exactly for every
mean anomaly — a consequence of the general tolerance test succeeding at
the seed, not of a special-cased branch — and the propagated orbital
radius of an `e = 0` element record is constant, equal to the semi-major
axis, at every elapsed time. -/
theorem kepler_circular_orbit (M t : ℝ) (el : OrbitalElements) (he : el.e = 0) :
    solveKepler 0 M = M ∧ orbitalRadius el t = el.a := by
  constructor
  · exact keplerIter_zero_ecc M KEPLER_MAX_ITER
  · unfold orbitalRadius
    rw [he]
    ring

/-- Witness for C5 at `M = 1`, `t = 5` and a circular element record with
semi-major axis 2. -/
theorem kepler_circular_orbit_witness :
    solveKepler 0 1 = 1 ∧
    orbitalRadius ⟨2, 0, 0, 0, 0, 0, 1, Body.Sun⟩ 5 = 2 :=
  kepler_circular_orbit 1 5 ⟨2, 0, 0, 0, 0, 0, 1, Body.Sun⟩ rfl

/-- C7: `bodies()` is the fixed set of all ten `Body` values — every body
is a member and the cardinality is exactly ten — and the queries
`position_of`, `velocity_of` and `properties_of` are total functions of
the closed enumeration (each is defined on every `Body` argument; no
"unknown body" branch exists in their definitions). -/
theorem bodies_closed_enumeration (s : Simulation) :
    (Simulation.bodies s).card = 10 ∧
    (∀ b : Body, b ∈ Simulation.bodies s) ∧
    (∀ b : Body,
      s.solar_system.position_of b
        = globalPositionAt b (s.solar_system.T - s.solar_system.epoch) ∧
      s.solar_system.velocity_of b
        = globalVelocityAt b (s.solar_system.T - s.solar_system.epoch) ∧
      s.solar_system.properties_of b = propertiesOf b) := by
  refine ⟨?_, fun b => Finset.mem_univ b, fun b => ⟨rfl, rfl, rfl⟩⟩
  show (Finset.univ : Finset Body).card = 10
  decide

/-- C8: the boundary wrapper converts each position component from meters
to astronomical units and scales the velocity by `MPS_TO_AUPD` (meters
per second to astronomical units per day, i.e. seconds-per-day over
meters-per-AU); the engine values it converts are exactly the propagation
results in internal units — no display-unit conversion occurs inside the
propagation math. -/
theorem boundary_unit_conversions (s : Simulation) (b : Body) :
    Simulation.position_of s b
      = ⟨(s.solar_system.position_of b).x / METERS_PER_AU,
         (s.solar_system.position_of b).y / METERS_PER_AU,
         (s.solar_system.position_of b).z / METERS_PER_AU⟩ ∧
    Simulation.velocity_of s b
      = Vec3.smul (86400 / METERS_PER_AU) (s.solar_system.velocity_of b) ∧
    s.solar_system.position_of b
      = globalPositionAt b (s.solar_system.T - s.solar_system.epoch) ∧
    s.solar_system.velocity_of b
      = globalVelocityAt b (s.solar_system.T - s.solar_system.epoch) :=
  ⟨rfl, rfl, rfl, rfl⟩

/-- C9: every call of the reference driver's `Simulation::advance` moves
the engine clock forward by the fixed step of 30 minutes (`DT = 30`
minutes, i.e. `30 * 60` seconds), and `Simulation::init` constructs the
solar system with epoch Julian Date 2459945.5 (days converted to the
engine's seconds) and the clock starting at that epoch. -/
theorem fixed_step_and_epoch (s : Simulation) :
    (Simulation.advance s).solar_system.T = s.solar_system.T + 30 * 60 ∧
    Simulation.init.solar_system.epoch = 2459945.5 * 86400 ∧
    Simulation.init.solar_system.T = Simulation.init.solar_system.epoch := by
  refine ⟨?_, rfl, rfl⟩
  show ((s.solar_system.advance_time (Simulation.DT * 60)).1).T
    = s.solar_system.T + 30 * 60
  unfold SolarSystem.advance_time
  rw [if_neg (by norm_num [Simulation.DT])]
  norm_num [Simulation.DT]

/-- C10: after `Simulation::init` the visuals table has an entry for every
one of the ten bodies, so `color_of` never takes its `Color::WHITE`
fallback branch and `name_of` never takes its `"unknown"` fallback branch:
both lookups succeed for every `Body` argument. -/
theorem body_visuals_total :
    ∀ b : Body,
      (Simulation.init.body_visuals.lookup b).isSome = true ∧
      Simulation.name_of Simulation.init b ≠ "unknown" ∧
      Simulation.color_of Simulation.init b ≠ Color.WHITE := by
  intro b
  refine ⟨?_, ?_, ?_⟩
  · cases b <;> rfl
  · cases b <;> decide
  · cases b
    case Sun =>
      intro h
      have h1 : (10 : ℚ) * 0.9922 = 1 := congrArg Color.red h
      norm_num at h1
    case Mercury =>
      intro h
      have h1 : ((0x1a : ℕ) : ℚ) / 255 = 1 := congrArg Color.red h
      norm_num at h1
    case Venus =>
      intro h
      have h1 : ((0xe6 : ℕ) : ℚ) / 255 = 1 := congrArg Color.red h
      norm_num at h1
    case Earth =>
      intro h
      have h1 : ((0x2f : ℕ) : ℚ) / 255 = 1 := congrArg Color.red h
      norm_num at h1
    case Moon =>
      intro h
      have h1 : ((96 : ℕ) : ℚ) / 255 = 1 := congrArg Color.red h
      norm_num at h1
    case Mars =>
      intro h
      have h1 : ((0x99 : ℕ) : ℚ) / 255 = 1 := congrArg Color.red h
      norm_num at h1
    case Jupiter =>
      intro h
      have h1 : ((0xb0 : ℕ) : ℚ) / 255 = 1 := congrArg Color.red h
      norm_num at h1
    case Saturn =>
      intro h
      have h1 : ((0xb0 : ℕ) : ℚ) / 255 = 1 := congrArg Color.red h
      norm_num at h1
    case Uranus =>
      intro h
      have h1 : ((0x55 : ℕ) : ℚ) / 255 = 1 := congrArg Color.red h
      norm_num at h1
    case Neptune =>
      intro h
      have h1 : ((0x36 : ℕ) : ℚ) / 255 = 1 := congrArg Color.red h
      norm_num at h1

end SolSys
